import Mathlib

/-!
Shallow embedding of the event-to-deployment pipeline of the
`hono-kube-deploy-automation` repository, together with proofs of the
spec-level properties about the Retry Driver, Cluster Applier, Readiness
Waiter, Workflow Trigger, cleanup fan-out, tag substitution and webhook
event extraction.

Go strings are modelled as lists of characters (`Str`); Go `error` values
as `Option Str` (`none` = nil error) or `Except Str`; Go durations as
natural numbers of nanoseconds.
-/

/-- Go strings, modelled as lists of characters. -/
abbrev Str := List Char

/-- Coerce a Lean string literal to the `Str` model. -/
def str (s : String) : Str := s.data

/-- Model of Go `strings.Contains(s, pat)`: `pat` occurs as a contiguous
substring of `s` (an empty pattern is always contained). -/
def strContains (s pat : Str) : Bool :=
  match s with
  | [] => pat.isEmpty
  | _ :: rest => pat.isPrefixOf s || strContains rest pat

/-- Model of Go `strings.Replace(s, pat, rep, -1)` for a non-empty
pattern: scan left to right and replace each non-overlapping occurrence
of `pat` by `rep`.  (Go's special case of an empty pattern, which inserts
`rep` between runes, is not modelled; every call site uses the pattern
`"latest"`.) -/
def replaceAll (s pat rep : Str) : Str :=
  match s with
  | [] => []
  | c :: rest =>
    if h : pat ≠ [] ∧ pat.isPrefixOf (c :: rest) = true then
      rep ++ replaceAll ((c :: rest).drop pat.length) pat rep
    else
      c :: replaceAll rest pat rep
termination_by s.length
decreasing_by
  · simp only [List.length_drop, List.length_cons]
    have hpat : 0 < pat.length := List.length_pos.mpr h.1
    omega
  · simp

/-- Go `fmt` rendering of a slice of errors: elements space-separated. -/
def joinSpace : List Str → Str
  | [] => []
  | [e] => e
  | e :: rest => e ++ (' ' :: joinSpace rest)

/-! ## Retry Driver

`retryKubeResources` from `internal/webhook/handler.go`:

```go
func (s *Server) retryKubeResources(attempts int, initialSleep time.Duration, kubeFunc func() error) error {
    var err error
    sleep := initialSleep
    for i := 0; i < attempts; i++ {
        err = kubeFunc()
        if err == nil { return nil }
        if i < attempts-1 {
            timer := time.NewTimer(sleep)
            <-timer.C
            sleep = time.Duration(math.Min(float64(sleep)*2, float64(30*time.Second)))
        }
    }
    finalErr := fmt.Errorf("after %d attempts, last error: %s", attempts, err)
    return finalErr
}
```

The unit of work is modelled as `f : Nat → Option Str` giving the error
(or `none` for success) of the i-th call, 0-based.  The embedding also
returns the list of slept durations, in order, so that the retry-budget
and cancellation claims can be stated.  Note: the function has no
`context.Context` parameter; the sleep is a plain timer wait. -/

/-- The backoff ceiling: 30 seconds in nanoseconds. -/
def retryCap : Nat := 30000000000

/-- The retry loop body: remaining iteration count, current sleep,
current call index, last seen error.  Returns `none` on success,
`some lastErr` when the loop exhausts, plus the slept durations. -/
def retryGo (f : Nat → Option Str) : Nat → Nat → Option Str → Nat → Option (Option Str) × List Nat
  | _sleep, _i, lastErr, 0 => (some lastErr, [])
  | sleep, i, _lastErr, r + 1 =>
    match f i with
    | none => (none, [])
    | some e =>
      if r = 0 then (some (some e), [])
      else
        let next := retryGo f (min (sleep * 2) retryCap) (i + 1) (some e) r
        (next.1, sleep :: next.2)

/-- Go `fmt` `%s` of an `error` that may be nil. -/
def fmtGoErr : Option Str → Str
  | some e => e
  | none => str "%!s(<nil>)"

/-- Embedding of `retryKubeResources`: run `f` up to `attempts` times with doubling,
capped backoff; return the overall outcome and the slept durations. -/
def retryKubeResources (attempts initialSleep : Nat) (f : Nat → Option Str) :
    Except Str Unit × List Nat :=
  match retryGo f initialSleep 0 none attempts with
  | (none, sl) => (Except.ok (), sl)
  | (some lastErr, sl) =>
    (Except.error (str "after " ++ (toString attempts).data ++
        str " attempts, last error: " ++ fmtGoErr lastErr), sl)

/-- The sleep schedule the driver follows: first delay `d`, each
subsequent delay double the previous one capped at `retryCap`. -/
def sleepSchedule (d : Nat) : Nat → List Nat
  | 0 => []
  | n + 1 => d :: sleepSchedule (min (d * 2) retryCap) n

/-- All three attempts failing: the driver sleeps the first two delays of
the schedule (no sleep after the last failure) and returns the composite
error built from the last call's error. -/
theorem retry_three_allFail (d : Nat) (f : Nat → Option Str)
    (hfail : ∀ i, i < 3 → (f i).isSome) :
    (retryKubeResources 3 d f).2 = sleepSchedule d 2 ∧
    ∃ e, f 2 = some e ∧
      (retryKubeResources 3 d f).1 =
        Except.error (str "after 3 attempts, last error: " ++ e) := by
  obtain ⟨e0, he0⟩ := Option.isSome_iff_exists.mp (hfail 0 (by norm_num))
  obtain ⟨e1, he1⟩ := Option.isSome_iff_exists.mp (hfail 1 (by norm_num))
  obtain ⟨e2, he2⟩ := Option.isSome_iff_exists.mp (hfail 2 (by norm_num))
  have h3 : (toString (3 : Nat)).data = ['3'] := rfl
  refine ⟨?_, e2, he2, ?_⟩
  · simp [retryKubeResources, retryGo, he0, he1, he2, sleepSchedule]
  · simp [retryKubeResources, retryGo, he0, he1, he2, fmtGoErr, str, h3]

/-- C1: for every unit of work run by the Retry Driver with maxAttempts=3
and initial delay `d`: if the unit fails on the first `N < 3` calls and
succeeds on call `N+1`, the driver returns ok and sleeps exactly the first
`N` delays of the schedule (each delay double the previous one capped at
30 seconds); if all 3 calls fail, no sleep occurs after the last failure
(only the first 2 delays are slept) and the returned error message
contains "after 3 attempts". -/
theorem retryKubeResources_budget (d : Nat) (f : Nat → Option Str) :
    (∀ N, N < 3 → (∀ i, i < N → (f i).isSome) → f N = none →
      retryKubeResources 3 d f = (Except.ok (), sleepSchedule d N)) ∧
    ((∀ i, i < 3 → (f i).isSome) →
      (retryKubeResources 3 d f).2 = sleepSchedule d 2 ∧
      ∃ e, f 2 = some e ∧ ∃ tail,
        (retryKubeResources 3 d f).1 =
          Except.error (str "after 3 attempts" ++ tail)) := by
  constructor
  · intro N hN hfail hsucc
    interval_cases N
    · simp [retryKubeResources, retryGo, hsucc, sleepSchedule]
    · obtain ⟨e0, he0⟩ := Option.isSome_iff_exists.mp (hfail 0 (by norm_num))
      simp [retryKubeResources, retryGo, he0, hsucc, sleepSchedule]
    · obtain ⟨e0, he0⟩ := Option.isSome_iff_exists.mp (hfail 0 (by norm_num))
      obtain ⟨e1, he1⟩ := Option.isSome_iff_exists.mp (hfail 1 (by norm_num))
      simp [retryKubeResources, retryGo, he0, he1, hsucc, sleepSchedule]
  · intro hfail
    obtain ⟨hsl, e, he, herr⟩ := retry_three_allFail d f hfail
    exact ⟨hsl, e, he, str ", last error: " ++ e, by
      rw [herr]; simp [str, List.append_assoc]⟩

/-- Witness for C1 at concrete inputs: a unit failing twice then
succeeding (N = 2), and a unit failing on all 3 calls, with initial delay
5 seconds. -/
theorem retryKubeResources_budget_witness :
    retryKubeResources 3 5000000000
        (fun i => if i < 2 then some (str "boom") else none) =
      (Except.ok (), sleepSchedule 5000000000 2) ∧
    (retryKubeResources 3 5000000000 (fun _ => some (str "boom"))).2 =
      sleepSchedule 5000000000 2 :=
  ⟨(retryKubeResources_budget 5000000000 _).1 2 (by norm_num) (by decide)
      (by decide),
   ((retryKubeResources_budget 5000000000 _).2 (by decide)).1⟩

/-- C2 counterexample: with maxAttempts=3 and initial delay 5 s, a caller
deadline of 2 s fires during the first sleep (2 s < 5 s), yet the driver
does not return any cancellation error and still runs the remaining
attempts: it sleeps both backoff delays in full (5 s, then 10 s) and
returns the composite after-3-attempts error built from the third call's
error ("boom2" shows call index 2 was executed). -/
theorem retry_deadline_cex :
    2000000000 < 5000000000 ∧
    (retryKubeResources 3 5000000000
        (fun i => some (str "boom" ++ (toString i).data))).2 =
      [5000000000, 10000000000] ∧
    (retryKubeResources 3 5000000000
        (fun i => some (str "boom" ++ (toString i).data))).1 =
      Except.error (str "after 3 attempts, last error: boom2") :=
  ⟨by norm_num, rfl, rfl⟩

/-- C2 amended: the Retry Driver takes no deadline and its sleep is not
cancellable; if a caller-supplied deadline `D` fires during the first
sleep (`D < d`), the driver nevertheless sleeps both backoff delays in
full and consumes all remaining attempts, returning the composite
after-3-attempts error built from the last call's error rather than the
deadline's cancellation error. -/
theorem retry_deadline_not_cancellable (d D : Nat) (f : Nat → Option Str)
    (hfires : D < d) (hfail : ∀ i, i < 3 → (f i).isSome) :
    (retryKubeResources 3 d f).2 = sleepSchedule d 2 ∧
    ∃ e, f 2 = some e ∧
      (retryKubeResources 3 d f).1 =
        Except.error (str "after 3 attempts, last error: " ++ e) :=
  retry_three_allFail d f hfail

/-- Witness for the amended C2 at concrete inputs: deadline 2 s, initial
delay 5 s, a unit failing on every call. -/
theorem retry_deadline_not_cancellable_witness :
    (retryKubeResources 3 5000000000 (fun _ => some (str "x"))).2 =
      sleepSchedule 5000000000 2 :=
  (retry_deadline_not_cancellable 5000000000 2000000000 _ (by norm_num)
    (by decide)).1

/-! ## Cluster Applier

`KubeClient.Deploy`, `KubeClient.Delete`, `getResource`,
`handleDeployResource`, `handleDeleteResource` from
`internal/client/kubernetes.go`.

The decoder (`scheme.Codecs.UniversalDeserializer`) and the typed cluster
API are external collaborators; a manifest is therefore represented by
its decode outcome (`Except Str KubeObj`), and the cluster API responses
(GET outcome, create/update/delete errors) are inputs.  The embedding
records the cluster calls it issues, in order, so that
create-versus-update and idempotence can be stated. -/

/-- The resource kinds the per-kind dispatch tables recognise; any other
decodable kind falls into the `default` branch of the Go type switches. -/
inductive K8sKind where
  | deployment
  | nsKind
  | configMap
  | service
  | ingress
  | otherKind (t : Str)
deriving DecidableEq

/-- A decoded Kubernetes resource object (`metav1.Object`): its kind, its
name, its top-level labels, and the workload replica count pointer. -/
structure KubeObj where
  kind : K8sKind
  name : Str
  labels : List (Str × Str)
  replicas : Option Int
deriving DecidableEq

/-- Whether the kind is one of the five supported by the dispatch tables. -/
def isSupported : K8sKind → Bool
  | .otherKind _ => false
  | _ => true

/-- Outcome of the cluster's GET for the object: found, the API's
distinguished not-found error, or any other API error. -/
inductive GetOutcome where
  | found
  | notFound
  | apiErr (e : Str)
deriving DecidableEq

/-- A call issued against the cluster API. -/
inductive ClusterCall where
  | getC (ns : Str) (o : KubeObj)
  | createC (ns : Str) (o : KubeObj)
  | updateC (ns : Str) (o : KubeObj)
  | deleteC (ns : Str) (o : KubeObj)
deriving DecidableEq

/-- Result of `getResource` as seen by its callers: success, an error
satisfying `errors.IsNotFound`, or any other error. -/
inductive GetRes where
  | ok
  | errNF
  | errOther (e : Str)
deriving DecidableEq

/-- Embedding of `getResource`: dispatch the GET by the object's kind; an unsupported
kind hits the `default` branch and returns the unsupported-kind error
without touching the cluster. -/
def getResource (api : GetOutcome) (ns : Str) (obj : KubeObj) :
    GetRes × List ClusterCall :=
  match obj.kind with
  | .otherKind t =>
    (.errOther (str "unsupported Kubernetes resource kind: " ++ t), [])
  | _ =>
    ((match api with
      | .found => .ok
      | .notFound => .errNF
      | .apiErr e => .errOther e), [ClusterCall.getC ns obj])

/-- Embedding of `getLabels`: the resource's top-level labels. -/
def getLabels (obj : KubeObj) : List (Str × Str) := obj.labels

/-- Embedding of `getReplicas`: the workload's replica count if the resource is a
workload and the pointer is non-nil, otherwise zero. -/
def getReplicas (obj : KubeObj) : Int :=
  match obj.kind with
  | .deployment => match obj.replicas with
    | some r => r
    | none => 0
  | _ => 0

/-- Embedding of `handleDeployResource` / `handleDeployResourceOperation`: create or
update the resource by kind dispatch; on success return the labels and
replica count.  `opErr` is the create/update API call's outcome. -/
def handleDeployResource (create : Bool) (ns : Str) (obj : KubeObj)
    (opErr : Option Str) : Except Str (List (Str × Str) × Int) × List ClusterCall :=
  match obj.kind with
  | .otherKind t =>
    (.error (str "unsupported Kubernetes resource kind: " ++ t), [])
  | _ =>
    let call := if create then ClusterCall.createC ns obj
                else ClusterCall.updateC ns obj
    match opErr with
    | none => (.ok (getLabels obj, getReplicas obj), [call])
    | some e =>
      (.error (str "failed to handle Kubernetes resource type: " ++ e), [call])

/-- Embedding of `KubeClient.Deploy`: decode; GET; any GET error other than not-found
aborts; not-found switches to create, otherwise update. -/
def kubeDeploy (decodeRes : Except Str KubeObj) (ns : Str) (api : GetOutcome)
    (createErr updateErr : Option Str) :
    Except Str (List (Str × Str) × Int) × List ClusterCall :=
  match decodeRes with
  | .error e => (.error e, [])
  | .ok obj =>
    let g := getResource api ns obj
    match g.1 with
    | .errOther e =>
      (.error (str "failed to get Kubernetes resource: " ++ e), g.2)
    | .errNF =>
      let h := handleDeployResource true ns obj createErr
      (h.1, g.2 ++ h.2)
    | .ok =>
      let h := handleDeployResource false ns obj updateErr
      (h.1, g.2 ++ h.2)

/-- Embedding of `handleDeleteResource`: delete by kind dispatch; the delete API
call's error (if any) is returned unwrapped. -/
def handleDeleteResource (ns : Str) (obj : KubeObj) (deleteErr : Option Str) :
    Except Str Unit × List ClusterCall :=
  match obj.kind with
  | .otherKind t =>
    (.error (str "unsupported Kubernetes resource kind: " ++ t), [])
  | _ =>
    match deleteErr with
    | none => (.ok (), [ClusterCall.deleteC ns obj])
    | some e => (.error e, [ClusterCall.deleteC ns obj])

/-- Embedding of `KubeClient.Delete`: decode; GET; not-found means skip deletion and
succeed; any other GET error aborts; otherwise delete. -/
def kubeDelete (decodeRes : Except Str KubeObj) (ns : Str) (api : GetOutcome)
    (deleteErr : Option Str) : Except Str Unit × List ClusterCall :=
  match decodeRes with
  | .error e => (.error e, [])
  | .ok obj =>
    let g := getResource api ns obj
    match g.1 with
    | .errOther e =>
      (.error (str "failed to get Kubernetes resource: " ++ e), g.2)
    | .errNF => (.ok (), g.2)
    | .ok =>
      let h := handleDeleteResource ns obj deleteErr
      (h.1, g.2 ++ h.2)

/-- Two decoded objects denote the same cluster resource. -/
def sameId (a b : KubeObj) : Prop := a.kind = b.kind ∧ a.name = b.name

instance (a b : KubeObj) : Decidable (sameId a b) := by
  unfold sameId; infer_instance

/-- Abstract cluster state: the set of objects currently present. -/
def clusterGet (st : List KubeObj) (obj : KubeObj) : GetOutcome :=
  if ∃ o ∈ st, sameId o obj then .found else .notFound

/-- Run `KubeClient.Delete` against the abstract cluster state: the GET
outcome is derived from the state, the delete API call succeeds, and a
successful delete removes the object's identity from the state. -/
def runDelete (st : List KubeObj) (ns : Str) (obj : KubeObj) :
    (Except Str Unit × List ClusterCall) × List KubeObj :=
  let out := kubeDelete (.ok obj) ns (clusterGet st obj) none
  let st' := if ClusterCall.deleteC ns obj ∈ out.2 then
               st.filter (fun o => decide (¬ sameId o obj))
             else st
  (out, st')

/-- Lemma: `getResource` on a supported kind issues exactly the GET and reports
the API's outcome. -/
theorem getResource_supported (api : GetOutcome) (ns : Str) (obj : KubeObj)
    (h : isSupported obj.kind = true) :
    getResource api ns obj =
      ((match api with
        | .found => GetRes.ok
        | .notFound => GetRes.errNF
        | .apiErr e => GetRes.errOther e), [ClusterCall.getC ns obj]) := by
  obtain ⟨k, n, l, r⟩ := obj
  cases k <;> simp_all [getResource, isSupported]

/-- Lemma: `handleDeleteResource` on a supported kind with a healthy cluster
issues exactly the delete and succeeds. -/
theorem handleDeleteResource_supported (ns : Str) (obj : KubeObj)
    (h : isSupported obj.kind = true) :
    handleDeleteResource ns obj none =
      (Except.ok (), [ClusterCall.deleteC ns obj]) := by
  obtain ⟨k, n, l, r⟩ := obj
  cases k <;> simp_all [handleDeleteResource, isSupported]

/-- Lemma: `handleDeployResource` on a supported kind issues exactly the create
(or update) call and mirrors that call's outcome. -/
theorem handleDeployResource_supported (create : Bool) (ns : Str)
    (obj : KubeObj) (opErr : Option Str) (h : isSupported obj.kind = true) :
    handleDeployResource create ns obj opErr =
      ((match opErr with
        | none => Except.ok (getLabels obj, getReplicas obj)
        | some e =>
          Except.error (str "failed to handle Kubernetes resource type: " ++ e)),
       [if create then ClusterCall.createC ns obj
        else ClusterCall.updateC ns obj]) := by
  obtain ⟨k, n, l, r⟩ := obj
  cases k <;> cases opErr <;> simp_all [handleDeployResource, isSupported]

/-- C3: for every manifest decoding to a supported resource object and
every namespace, Deploy creates the resource when the preliminary GET
reports not-found (calls: GET then CREATE), updates it when the GET finds
it (calls: GET then UPDATE), and returns an error performing neither
create nor update when the GET fails with any error other than
not-found; a manifest decoding to any other kind yields an
unsupported-kind error with no cluster call. -/
theorem kubeDeploy_create_or_update (obj : KubeObj) (ns : Str)
    (createErr updateErr : Option Str) (hsup : isSupported obj.kind = true) :
    ((kubeDeploy (.ok obj) ns .notFound createErr updateErr).2 =
      [ClusterCall.getC ns obj, ClusterCall.createC ns obj]) ∧
    ((kubeDeploy (.ok obj) ns .found createErr updateErr).2 =
      [ClusterCall.getC ns obj, ClusterCall.updateC ns obj]) ∧
    (∀ e, kubeDeploy (.ok obj) ns (.apiErr e) createErr updateErr =
      (Except.error (str "failed to get Kubernetes resource: " ++ e),
       [ClusterCall.getC ns obj])) ∧
    (∀ t nm lb rp api cE uE,
      kubeDeploy (.ok ⟨K8sKind.otherKind t, nm, lb, rp⟩) ns api cE uE =
        (Except.error (str "failed to get Kubernetes resource: " ++
          (str "unsupported Kubernetes resource kind: " ++ t)), [])) := by
  refine ⟨?_, ?_, ?_, ?_⟩
  · cases createErr <;>
      simp [kubeDeploy, getResource_supported _ _ _ hsup,
        handleDeployResource_supported _ _ _ _ hsup]
  · cases updateErr <;>
      simp [kubeDeploy, getResource_supported _ _ _ hsup,
        handleDeployResource_supported _ _ _ _ hsup]
  · intro e
    rw [kubeDeploy, getResource_supported _ _ _ hsup]
  · intro t nm lb rp api cE uE
    simp [kubeDeploy, getResource]

/-- Witness for C3 at a concrete deployment manifest and namespace. -/
theorem kubeDeploy_create_or_update_witness :
    (kubeDeploy
        (.ok ⟨K8sKind.deployment, str "my-app", [(str "app", str "my-app")], some 2⟩)
        (str "dev") GetOutcome.notFound none none).2 =
      [ClusterCall.getC (str "dev")
         ⟨K8sKind.deployment, str "my-app", [(str "app", str "my-app")], some 2⟩,
       ClusterCall.createC (str "dev")
         ⟨K8sKind.deployment, str "my-app", [(str "app", str "my-app")], some 2⟩] :=
  (kubeDeploy_create_or_update _ _ none none (by decide)).1

/-- C4: the Delete operation is idempotent: when the GET reports the
resource not-found, Delete returns success issuing no delete call and
leaves the cluster state unchanged; and after any Delete, a second
Delete of the same object finds it absent, succeeds without a delete
call, and leaves the state unchanged. -/
theorem kubeDelete_idempotent (st : List KubeObj) (ns : Str) (obj : KubeObj)
    (hsup : isSupported obj.kind = true) :
    ((¬ ∃ o ∈ st, sameId o obj) →
      runDelete st ns obj = ((Except.ok (), [ClusterCall.getC ns obj]), st)) ∧
    runDelete (runDelete st ns obj).2 ns obj =
      ((Except.ok (), [ClusterCall.getC ns obj]), (runDelete st ns obj).2) := by
  have habs : ∀ st' : List KubeObj, (¬ ∃ o ∈ st', sameId o obj) →
      runDelete st' ns obj = ((Except.ok (), [ClusterCall.getC ns obj]), st') := by
    intro st' h
    rw [runDelete, clusterGet, if_neg h]
    rw [show kubeDelete (.ok obj) ns .notFound none =
        (Except.ok (), [ClusterCall.getC ns obj]) by
      rw [kubeDelete, getResource_supported _ _ _ hsup]]
    simp
  refine ⟨habs st, ?_⟩
  by_cases hex : ∃ o ∈ st, sameId o obj
  · have h1 : (runDelete st ns obj).2 =
        st.filter (fun o => decide (¬ sameId o obj)) := by
      rw [runDelete, clusterGet, if_pos hex]
      rw [show kubeDelete (.ok obj) ns .found none =
          (Except.ok (),
           [ClusterCall.getC ns obj, ClusterCall.deleteC ns obj]) by
        simp [kubeDelete, getResource_supported _ _ _ hsup,
          handleDeleteResource_supported _ _ hsup]]
      simp
    rw [h1]
    apply habs
    rintro ⟨o, ho, hid⟩
    rw [List.mem_filter] at ho
    exact absurd hid (by simpa using ho.2)
  · rw [habs st hex]
    exact habs st hex

/-- Witness for C4: deleting a concrete deployment object twice from a
one-object cluster; the second run succeeds with only a GET. -/
theorem kubeDelete_idempotent_witness :
    runDelete
        (runDelete [⟨K8sKind.deployment, str "my-app", [], some 1⟩]
          (str "dev") ⟨K8sKind.deployment, str "my-app", [], some 1⟩).2
        (str "dev") ⟨K8sKind.deployment, str "my-app", [], some 1⟩ =
      ((Except.ok (),
        [ClusterCall.getC (str "dev")
          ⟨K8sKind.deployment, str "my-app", [], some 1⟩]),
       (runDelete [⟨K8sKind.deployment, str "my-app", [], some 1⟩]
         (str "dev") ⟨K8sKind.deployment, str "my-app", [], some 1⟩).2) :=
  (kubeDelete_idempotent _ _ _ (by decide)).2

/-! ## Manifest tag substitution in the deploy and cleanup flows

From `deployKubeResources` and `cleanupKubeResources` in
`internal/webhook/handler.go`:

```go
// deploy (after the namespace pass):
for _, res := range *kubeResources {
    if strings.Contains(res, "Namespace") { continue }
    if strings.Contains(res, "kind: Deployment") && data.imageTag != "latest" {
        res = strings.Replace(res, "latest", data.imageTag, -1)
    }
    ... s.KubeClient.Deploy(..., []byte(res), ...)
}
// cleanup:
for _, res := range *kubeResources {
    if strings.Contains(res, "kind: Deployment") {
        res = strings.Replace(res, "latest", data.imageTag, -1)
    }
    ... s.KubeClient.Delete(..., []byte(res), ...)
}
```

`appliedResources`/`cleanupResources` compute, in bundle order, the
manifest texts passed to the Cluster Applier by the two loops. -/

/-- The per-manifest substitution of the deploy loop. -/
def deploySubstitute (imageTag res : Str) : Str :=
  if strContains res (str "kind: Deployment") = true ∧ imageTag ≠ str "latest"
  then replaceAll res (str "latest") imageTag
  else res

/-- Texts passed to `KubeClient.Deploy` by the deploy loop (the loop
skips any manifest containing the token "Namespace"). -/
def appliedResources (imageTag : Str) : List Str → List Str
  | [] => []
  | res :: rest =>
    if strContains res (str "Namespace") = true then
      appliedResources imageTag rest
    else deploySubstitute imageTag res :: appliedResources imageTag rest

/-- The per-manifest substitution of the cleanup loop (no
imageTag-not-latest guard). -/
def cleanupSubstitute (imageTag res : Str) : Str :=
  if strContains res (str "kind: Deployment") = true
  then replaceAll res (str "latest") imageTag
  else res

/-- Texts passed to `KubeClient.Delete` by the cleanup loop. -/
def cleanupResources (imageTag : Str) (bundle : List Str) : List Str :=
  bundle.map (cleanupSubstitute imageTag)

/-- Replacing a pattern by itself is the identity. -/
theorem replaceAll_self (s pat : Str) : replaceAll s pat pat = s := by
  have key : ∀ n (s : Str), s.length ≤ n → replaceAll s pat pat = s := by
    intro n
    induction n with
    | zero =>
      intro s hs
      have hnil : s = [] := List.eq_nil_of_length_eq_zero (Nat.le_zero.mp hs)
      subst hnil
      simp [replaceAll]
    | succ n ih =>
      intro s hs
      match s with
      | [] => simp [replaceAll]
      | c :: rest =>
        rw [replaceAll]
        by_cases h : pat ≠ [] ∧ pat.isPrefixOf (c :: rest) = true
        · rw [dif_pos h]
          obtain ⟨t, ht⟩ := List.isPrefixOf_iff_prefix.mp h.2
          rw [← ht, List.drop_left]
          have hlen : t.length ≤ n := by
            have hp : 0 < pat.length := List.length_pos.mpr h.1
            have := congrArg List.length ht
            simp [List.length_append] at this
            simp [List.length_cons] at hs
            omega
          rw [ih t hlen]
        · rw [dif_neg h]
          have hlen : rest.length ≤ n := by
            simp [List.length_cons] at hs; omega
          rw [ih rest hlen]
  exact key s.length s le_rfl

/-- A non-namespace manifest of the bundle reaches the deploy loop's
apply call with exactly its substituted text. -/
theorem mem_appliedResources (imageTag : Str) (bundle : List Str) (W : Str)
    (hW : W ∈ bundle) (hns : strContains W (str "Namespace") = false) :
    deploySubstitute imageTag W ∈ appliedResources imageTag bundle := by
  induction bundle with
  | nil => cases hW
  | cons a rest ih =>
    rcases List.mem_cons.mp hW with h | h
    · subst h
      simp [appliedResources, hns]
    · by_cases hA : strContains a (str "Namespace") = true <;>
        simp [appliedResources, hA, ih h]

/-- C5: for every workload manifest W (a manifest containing the token
"kind: Deployment" and not the token "Namespace") in a bundle processed
by the deploy flow: if imageTag differs from "latest", the text passed to
the Cluster Applier is W with every literal "latest" token replaced by
imageTag (`replaceAll`), in both the deploy and the cleanup loops; if
imageTag equals "latest", the passed text equals W unchanged. -/
theorem deploy_tag_substitution (bundle : List Str) (imageTag W : Str)
    (hW : W ∈ bundle)
    (hwork : strContains W (str "kind: Deployment") = true)
    (hns : strContains W (str "Namespace") = false) :
    (imageTag ≠ str "latest" →
      replaceAll W (str "latest") imageTag ∈ appliedResources imageTag bundle ∧
      replaceAll W (str "latest") imageTag ∈ cleanupResources imageTag bundle) ∧
    (imageTag = str "latest" →
      W ∈ appliedResources imageTag bundle ∧
      W ∈ cleanupResources imageTag bundle) := by
  constructor
  · intro hne
    constructor
    · have h1 := mem_appliedResources imageTag bundle W hW hns
      rwa [deploySubstitute, if_pos ⟨hwork, hne⟩] at h1
    · have h1 : cleanupSubstitute imageTag W ∈ cleanupResources imageTag bundle :=
        List.mem_map_of_mem _ hW
      rwa [cleanupSubstitute, if_pos hwork] at h1
  · intro heq
    subst heq
    constructor
    · have h1 := mem_appliedResources (str "latest") bundle W hW hns
      rwa [deploySubstitute, if_neg (fun hc => hc.2 rfl)] at h1
    · have h1 : cleanupSubstitute (str "latest") W ∈
          cleanupResources (str "latest") bundle :=
        List.mem_map_of_mem _ hW
      rwa [cleanupSubstitute, if_pos hwork, replaceAll_self] at h1

/-- Witness for C5: a concrete two-manifest bundle and imageTag
"abcdef1"; the workload manifest is applied with "latest" replaced. -/
theorem deploy_tag_substitution_witness :
    replaceAll (str "kind: Deployment\nimage: repo:latest") (str "latest")
        (str "abcdef1") ∈
      appliedResources (str "abcdef1")
        [str "kind: Deployment\nimage: repo:latest", str "kind: Service"] :=
  ((deploy_tag_substitution
      [str "kind: Deployment\nimage: repo:latest", str "kind: Service"]
      (str "abcdef1") (str "kind: Deployment\nimage: repo:latest")
      (by decide) (by decide) (by decide)).1 (by decide)).1

/-! ## Cleanup fan-out error aggregation

`issueCommentEventCleanup` spawns four concurrent units (delete container
image, delete cluster resources, delete local repository, delete remote
package image); each failing unit sends exactly one error on the error
channel, the channel is closed once all units finish, and
`collectCleanupErrors` drains it:

```go
func (s *Server) collectCleanupErrors(errChan <-chan error) error {
    var errs []error
    for err := range errChan {
        if err != nil { errs = append(errs, err) }
    }
    if len(errs) > 0 {
        return fmt.Errorf("errors occurred during cleanup: %v", errs)
    }
    return nil
}
```

The channel's arrival order is scheduler-dependent, so the aggregation
theorem quantifies over every permutation of the failing units' errors. -/

/-- Embedding of `collectCleanupErrors` on the drained channel contents. -/
def collectCleanupErrors (errs : List Str) : Option Str :=
  if errs.length > 0 then
    some (str "errors occurred during cleanup: [" ++ joinSpace errs ++ str "]")
  else none

/-- The errors sent on the channel by the four cleanup units of
`issueCommentEventCleanup` (each unit sends its error only on failure). -/
def cleanupUnitErrors (containerize kubeClean localRepo ghImage : Option Str) :
    List Str :=
  [containerize, kubeClean, localRepo, ghImage].filterMap id

/-- Every element of a list occurs contiguously in its space-joined
rendering. -/
theorem joinSpace_mem (l : List Str) (e : Str) (he : e ∈ l) :
    ∃ p q, joinSpace l = p ++ e ++ q := by
  induction l with
  | nil => cases he
  | cons a rest ih =>
    match rest, ih, he with
    | [], _, he =>
      rcases List.mem_singleton.mp he with rfl
      exact ⟨[], [], by simp [joinSpace]⟩
    | b :: rest', ih, he =>
      rcases List.mem_cons.mp he with rfl | hmem
      · exact ⟨[], ' ' :: joinSpace (b :: rest'), by simp [joinSpace]⟩
      · obtain ⟨p, q, hpq⟩ := ih hmem
        exact ⟨a ++ ' ' :: p, q, by simp [joinSpace, hpq]⟩

/-- C6: for every cleanup fan-out in which k of the four spawned units
fail, and every arrival order of their errors on the channel: the
collector gathers exactly the k unit errors, the returned composite
error references (contains) each of the k underlying errors, and the
result is nil exactly when k = 0. -/
theorem cleanup_error_aggregation (u1 u2 u3 u4 : Option Str)
    (arrival : List Str)
    (hperm : arrival.Perm (cleanupUnitErrors u1 u2 u3 u4)) :
    arrival.length = (cleanupUnitErrors u1 u2 u3 u4).length ∧
    (collectCleanupErrors arrival = none ↔
      (cleanupUnitErrors u1 u2 u3 u4).length = 0) ∧
    (∀ e ∈ arrival, ∀ m, collectCleanupErrors arrival = some m →
      ∃ p q, m = p ++ e ++ q) := by
  refine ⟨hperm.length_eq, ?_, ?_⟩
  · constructor
    · intro hnone
      by_contra hk
      have hpos : arrival.length > 0 := by rw [hperm.length_eq]; omega
      rw [collectCleanupErrors, if_pos hpos] at hnone
      exact Option.noConfusion hnone
    · intro hk
      have h0 : ¬ arrival.length > 0 := by rw [hperm.length_eq]; omega
      rw [collectCleanupErrors, if_neg h0]
  · intro e he m hm
    have hlen : arrival.length > 0 :=
      List.length_pos.mpr (by rintro rfl; cases he)
    rw [collectCleanupErrors, if_pos hlen] at hm
    obtain ⟨p, q, hpq⟩ := joinSpace_mem arrival e he
    refine ⟨str "errors occurred during cleanup: [" ++ p, q ++ str "]", ?_⟩
    rw [← Option.some_inj.mp hm, hpq]
    simp

/-- Witness for C6 at a concrete fan-out: units 1 and 3 fail, arrival in
spawn order. -/
theorem cleanup_error_aggregation_witness :
    collectCleanupErrors
        (cleanupUnitErrors (some (str "img fail")) none
          (some (str "repo fail")) none) = none ↔
      (cleanupUnitErrors (some (str "img fail")) none
        (some (str "repo fail")) none).length = 0 :=
  (cleanup_error_aggregation _ _ _ _ _ (List.Perm.refl _)).2.1

/-! ## Workflow Trigger conclusion classification

`handleWorkflowConclusion` and the status handling of
`waitForWorkflowCompletion` from `internal/client/github.go`:

```go
switch conclusion {
case "success":            // ok, let the caller decide
case "failure":            return fmt.Errorf("workflow %s failed with conclusion: %s", WFFile, conclusion)
case "neutral", "cancelled", "timed_out", "action_required":
                           return fmt.Errorf("workflow %s ended with conclusion: %s", WFFile, conclusion)
default:                   return fmt.Errorf("unknown workflow conclusion: %s", conclusion)
}
```

Inside the polling loop, a poll whose status is "completed" returns the
classification error immediately; a "success" classification yields no
error and the loop keeps polling until its time cap. -/

/-- Embedding of `handleWorkflowConclusion`: classify a terminal conclusion. -/
def handleWorkflowConclusion (wfFile conclusion : Str) : Option Str :=
  if conclusion = str "success" then none
  else if conclusion = str "failure" then
    some (str "workflow " ++ wfFile ++ str " failed with conclusion: " ++
      conclusion)
  else if conclusion = str "neutral" ∨ conclusion = str "cancelled" ∨
      conclusion = str "timed_out" ∨ conclusion = str "action_required" then
    some (str "workflow " ++ wfFile ++ str " ended with conclusion: " ++
      conclusion)
  else some (str "unknown workflow conclusion: " ++ conclusion)

/-- What one iteration of the polling loop does with an observed
(status, conclusion) pair. -/
inductive PollAction where
  | returnErr (e : Str)
  | keepPolling
deriving DecidableEq

/-- The status handling of one poll in `waitForWorkflowCompletion`. -/
def waitPollStep (wfFile status conclusion : Str) : PollAction :=
  if status = str "completed" then
    match handleWorkflowConclusion wfFile conclusion with
    | some e => .returnErr e
    | none => .keepPolling
  else .keepPolling

/-- C7: for every poll observing status "completed", the Workflow Trigger
classifies the conclusion: "success" yields ok (no error, polling
continues); "failure" yields an error; "neutral", "cancelled",
"timed_out" and "action_required" each yield an error whose message
contains the conclusion; any other conclusion yields the
unknown-conclusion error. -/
theorem workflow_conclusion_classification (wfFile conclusion : Str) :
    (conclusion = str "success" →
      handleWorkflowConclusion wfFile conclusion = none ∧
      waitPollStep wfFile (str "completed") conclusion = .keepPolling) ∧
    (conclusion = str "failure" →
      ∃ m, handleWorkflowConclusion wfFile conclusion = some m ∧
        waitPollStep wfFile (str "completed") conclusion = .returnErr m ∧
        ∃ p q, m = p ++ conclusion ++ q) ∧
    ((conclusion = str "neutral" ∨ conclusion = str "cancelled" ∨
      conclusion = str "timed_out" ∨ conclusion = str "action_required") →
      ∃ m, handleWorkflowConclusion wfFile conclusion = some m ∧
        waitPollStep wfFile (str "completed") conclusion = .returnErr m ∧
        ∃ p q, m = p ++ conclusion ++ q) ∧
    (conclusion ≠ str "success" → conclusion ≠ str "failure" →
      ¬(conclusion = str "neutral" ∨ conclusion = str "cancelled" ∨
        conclusion = str "timed_out" ∨ conclusion = str "action_required") →
      handleWorkflowConclusion wfFile conclusion =
        some (str "unknown workflow conclusion: " ++ conclusion) ∧
      waitPollStep wfFile (str "completed") conclusion =
        .returnErr (str "unknown workflow conclusion: " ++ conclusion)) := by
  refine ⟨?_, ?_, ?_, ?_⟩
  · rintro rfl
    exact ⟨rfl, rfl⟩
  · rintro rfl
    exact ⟨_, rfl, rfl,
      str "workflow " ++ wfFile ++ str " failed with conclusion: ", [],
      by simp⟩
  · rintro (rfl | rfl | rfl | rfl) <;>
      exact ⟨_, rfl, rfl,
        str "workflow " ++ wfFile ++ str " ended with conclusion: ", [],
        by simp⟩
  · intro h1 h2 h3
    have hh : handleWorkflowConclusion wfFile conclusion =
        some (str "unknown workflow conclusion: " ++ conclusion) := by
      rw [handleWorkflowConclusion, if_neg h1, if_neg h2, if_neg h3]
    refine ⟨hh, ?_⟩
    rw [waitPollStep, if_pos rfl, hh]

/-- Witness for C7 at conclusion "cancelled" and a concrete workflow
file. -/
theorem workflow_conclusion_classification_witness :
    ∃ m, handleWorkflowConclusion (str "deploy-kube-secrets-dev.yaml")
          (str "cancelled") = some m ∧
      waitPollStep (str "deploy-kube-secrets-dev.yaml") (str "completed")
          (str "cancelled") = .returnErr m ∧
      ∃ p q, m = p ++ str "cancelled" ++ q :=
  (workflow_conclusion_classification _ _).2.2.1 (Or.inr (Or.inl rfl))

/-! ## Readiness Waiter

`WaitForPodsRunning` from `internal/client/kubernetes.go`: each tick,
build a label selector from the label map, list pods by the selector,
count those in phase "Running", and succeed iff
`running > 0 && running == len(listed) && running == int(expectedPods)`;
if the context deadline fires while waiting for the next tick, return
the cancellation error.

The selector builder is the external library function
`k8s.io/apimachinery/pkg/labels.ValidatedSelectorFromSet`, whose fixed
behaviour is: a nil or empty set yields the empty (match-everything)
selector and no error; otherwise each key/value pair is validated and an
invalid pair yields an error.  `validate` abstracts that per-pair
validation. -/

/-- Pod phases as compared against `corev1.PodRunning`. -/
inductive PodPhase where
  | running
  | pending
  | succeeded
  | failed
  | unknown
deriving DecidableEq

/-- The waiter's possible returns, one constructor per `return` site. -/
inductive WaitResult where
  | ok
  | selectorErr (e : Str)
  | listErr (e : Str)
  | cancelled
deriving DecidableEq

/-- Model of `labels.ValidatedSelectorFromSet` (external library): empty set →
empty selector, no error; otherwise validate every pair. -/
def validatedSelectorFromSet (validate : Str → Str → Bool)
    (lbls : List (Str × Str)) : Except Str (List (Str × Str)) :=
  if lbls.isEmpty then .ok []
  else if lbls.all (fun p => validate p.1 p.2) then .ok lbls
  else .error (str "invalid label selector")

/-- One tick of the waiter: `some r` means return `r` now, `none` means
the success condition failed and the waiter keeps waiting. -/
def waitTick (validate : Str → Str → Bool) (lbls : List (Str × Str))
    (expected : Int) (pods : Except Str (List PodPhase)) : Option WaitResult :=
  match validatedSelectorFromSet validate lbls with
  | .error e => some (.selectorErr (str "create label selector failure: " ++ e))
  | .ok _ =>
    match pods with
    | .error e => some (.listErr (str "list pods failure: " ++ e))
    | .ok pl =>
      let running := (pl.filter (fun p => p == PodPhase.running)).length
      if 0 < running ∧ running = pl.length ∧ (running : Int) = expected
      then some .ok
      else none

/-- Embedding of `WaitForPodsRunning`: poll `podList` from tick `t` on; `fuel` is the
number of ticks the caller's deadline still allows — when it runs out
during the wait, the context's cancellation error is returned. -/
def waitForPodsRunning (validate : Str → Str → Bool)
    (lbls : List (Str × Str)) (expected : Int)
    (podList : Nat → Except Str (List PodPhase)) : Nat → Nat → WaitResult
  | t, 0 =>
    match waitTick validate lbls expected (podList t) with
    | some r => r
    | none => .cancelled
  | t, fuel + 1 =>
    match waitTick validate lbls expected (podList t) with
    | some r => r
    | none => waitForPodsRunning validate lbls expected podList (t + 1) fuel

/-- Whether a waiter result is the selector-construction error. -/
def isSelectorErr : WaitResult → Bool
  | .selectorErr _ => true
  | _ => false

/-- C8 counterexample: invoking the Readiness Waiter with an empty label
map does not return an error: the selector builds successfully (the
library yields the match-everything selector for an empty set) and the
waiter proceeds to poll pods — with one running pod and
expectedReplicas = 1 it even returns ok. -/
theorem waitForPodsRunning_empty_labels_cex :
    validatedSelectorFromSet (fun _ _ => true) [] = Except.ok [] ∧
    waitForPodsRunning (fun _ _ => true) [] 1
      (fun _ => Except.ok [PodPhase.running]) 0 0 = WaitResult.ok :=
  ⟨rfl, rfl⟩

/-- A tick with an empty label map never produces the selector error. -/
theorem waitTick_empty (validate : Str → Str → Bool) (expected : Int)
    (pods : Except Str (List PodPhase)) (r : WaitResult)
    (h : waitTick validate [] expected pods = some r) :
    isSelectorErr r = false := by
  cases pods with
  | error e =>
    simp [waitTick, validatedSelectorFromSet] at h
    rw [← h]
    rfl
  | ok pl =>
    simp [waitTick, validatedSelectorFromSet] at h
    rw [← h.2]
    rfl

/-- C8 amended: an empty label map is not rejected by the Readiness
Waiter: the selector builder returns the empty match-everything selector
without error, and no run of the waiter with an empty label map ever
returns a selector-construction error (it polls pods instead). -/
theorem waitForPodsRunning_empty_labels_polls (validate : Str → Str → Bool)
    (expected : Int) (podList : Nat → Except Str (List PodPhase))
    (t fuel : Nat) :
    validatedSelectorFromSet validate [] = Except.ok [] ∧
    isSelectorErr (waitForPodsRunning validate [] expected podList t fuel) =
      false := by
  refine ⟨rfl, ?_⟩
  induction fuel generalizing t with
  | zero =>
    rw [waitForPodsRunning]
    cases hw : waitTick validate [] expected (podList t) with
    | none => rfl
    | some r => exact waitTick_empty validate expected (podList t) r hw
  | succ fuel ih =>
    rw [waitForPodsRunning]
    cases hw : waitTick validate [] expected (podList t) with
    | none => exact ih (t + 1)
    | some r => exact waitTick_empty validate expected (podList t) r hw

/-! ## Remote package image delete and its cleanup unit

`GithubClient.DeletePackageImage` from `internal/client/github.go`:
iterate the package versions; on the first version carrying the tag,
delete it by id and return; if no version carries the tag, return the
error `package <name> with version tag <tag> not found`.

`cleanupImageOnGithub` from `internal/webhook/handler.go` calls it and
forwards any error to the cleanup error channel. -/

/-- A package version: its id and the container tags it carries. -/
structure PackageVersion where
  id : Int
  tags : List Str
deriving DecidableEq

/-- The version-scan loop of `DeletePackageImage`.  Also returns the ids
the delete API was called on. -/
def deletePackageImageLoop (pkgName tag : Str) (deleteApi : Int → Option Str) :
    List PackageVersion → Except Str Unit × List Int
  | [] =>
    (.error (str "package " ++ pkgName ++ str " with version tag " ++ tag ++
      str " not found"), [])
  | pv :: rest =>
    if tag ∈ pv.tags then
      match deleteApi pv.id with
      | some e => (.error (str "failed to delete package version: " ++ e), [pv.id])
      | none => (.ok (), [pv.id])
    else deletePackageImageLoop pkgName tag deleteApi rest

/-- Embedding of `DeletePackageImage`: list all versions of the package, then scan for
the tag.  `versionsRes` is the list-call's outcome; `deleteApi` the
delete-call outcomes by version id. -/
def DeletePackageImage (versionsRes : Except Str (List PackageVersion))
    (deleteApi : Int → Option Str) (pkgName tag : Str) :
    Except Str Unit × List Int :=
  match versionsRes with
  | .error e => (.error (str "failed to get package versions: " ++ e), [])
  | .ok pvs => deletePackageImageLoop pkgName tag deleteApi pvs

/-- Embedding of `cleanupImageOnGithub`: the errors this cleanup unit sends on the
fan-out error channel (its delete error, if any). -/
def cleanupImageOnGithub (deleteRes : Except Str Unit) : List Str :=
  match deleteRes with
  | .error e => [e]
  | .ok _ => []

/-- C9 counterexample: a remote image-version delete in which no package
version carries the requested tag (the second of two racing deletes)
returns the not-found error — not success — and issues no delete call;
the cleanup flow forwards it into a non-nil composite cleanup error. -/
theorem deletePackageImage_notfound_cex :
    DeletePackageImage (Except.ok [⟨1, [str "other"]⟩]) (fun _ => none)
        (str "acme/svc-api") (str "abcdef1") =
      (Except.error
        (str "package acme/svc-api with version tag abcdef1 not found"), []) ∧
    collectCleanupErrors
        (cleanupImageOnGithub
          (DeletePackageImage (Except.ok [⟨1, [str "other"]⟩]) (fun _ => none)
            (str "acme/svc-api") (str "abcdef1")).1) =
      some (str
        "errors occurred during cleanup: [package acme/svc-api with version tag abcdef1 not found]") :=
  ⟨rfl, rfl⟩

/-- C9 amended: when no package version carries the requested tag, the
delete operation returns the not-found error (issuing no delete call),
and the cleanup flow forwards that error to the error collector, whose
composite result is non-nil — the not-found outcome is reported as a
failure, not tolerated as success. -/
theorem deletePackageImage_notfound_error (pvs : List PackageVersion)
    (pkgName tag : Str) (deleteApi : Int → Option Str)
    (hno : ∀ pv ∈ pvs, tag ∉ pv.tags) :
    DeletePackageImage (.ok pvs) deleteApi pkgName tag =
      (.error (str "package " ++ pkgName ++ str " with version tag " ++ tag ++
        str " not found"), []) ∧
    ∃ m, collectCleanupErrors
        (cleanupImageOnGithub
          (DeletePackageImage (.ok pvs) deleteApi pkgName tag).1) = some m := by
  have hloop : deletePackageImageLoop pkgName tag deleteApi pvs =
      (.error (str "package " ++ pkgName ++ str " with version tag " ++ tag ++
        str " not found"), []) := by
    induction pvs with
    | nil => rfl
    | cons pv rest ih =>
      rw [deletePackageImageLoop,
        if_neg (hno pv (List.mem_cons_self pv rest))]
      exact ih (fun q hq => hno q (List.mem_cons_of_mem pv hq))
  refine ⟨hloop, ?_⟩
  rw [DeletePackageImage, hloop]
  exact ⟨_, rfl⟩

/-- Witness for the amended C9: one version carrying only a different
tag. -/
theorem deletePackageImage_notfound_error_witness :
    DeletePackageImage (.ok [⟨7, [str "test"]⟩]) (fun _ => none)
        (str "acme/svc-api") (str "v1") =
      (.error (str "package " ++ str "acme/svc-api" ++
        str " with version tag " ++ str "v1" ++ str " not found"), []) :=
  (deletePackageImage_notfound_error [⟨7, [str "test"]⟩] (str "acme/svc-api")
    (str "v1") (fun _ => none) (by decide)).1

/-! ## Webhook event extraction: the abbreviated-SHA slice

`extractEventData` from `internal/webhook/handler.go`, issue-comment
branch:

```go
pr, err := s.GithubClient.GetPullRequest(ctx, owner, repo, issueNum)
if err != nil { return nil, err }
data.ghBranch = pr.GetHead().GetRef()
data.imageTag = pr.GetHead().GetSHA()[:7]
```

Go string slicing `s[:7]` is defined only when `7 <= len(s)`; otherwise
the program panics with a slice-bounds-out-of-range runtime error.
`GetSHA()` returns the empty string when the field is absent. -/

/-- The pull request data the extraction reads. -/
structure PullRequestInfo where
  headRef : Str
  headSha : Str
deriving DecidableEq

/-- Outcome of the extraction: a normal value, a returned error, or a
runtime panic. -/
inductive ExtractOut where
  | ok (branch imageTag : Str)
  | err (e : Str)
  | panicked (msg : Str)
deriving DecidableEq

/-- The issue-comment branch of `extractEventData`, from fetching the
pull request to computing branch and image tag. -/
def extractEventDataIssueComment (getPR : Except Str PullRequestInfo) :
    ExtractOut :=
  match getPR with
  | .error e => .err e
  | .ok pr =>
    if 7 ≤ pr.headSha.length then .ok pr.headRef (pr.headSha.take 7)
    else .panicked (str "runtime error: slice bounds out of range")

/-- C10: when the pull request fetch succeeds, `extractEventData` takes
the first seven characters of the head SHA with no length guard: with a
SHA of at least seven characters it returns the seven-character prefix
as the image tag; with a shorter SHA — including the empty string when
the field is absent — it panics instead of returning an error, so
totality requires the precondition that the head SHA has at least seven
characters. -/
theorem extractEventData_sha_panic (pr : PullRequestInfo) :
    (7 ≤ pr.headSha.length →
      extractEventDataIssueComment (.ok pr) =
        .ok pr.headRef (pr.headSha.take 7)) ∧
    (pr.headSha.length < 7 →
      extractEventDataIssueComment (.ok pr) =
        .panicked (str "runtime error: slice bounds out of range")) ∧
    (pr.headSha = [] →
      extractEventDataIssueComment (.ok pr) =
        .panicked (str "runtime error: slice bounds out of range")) := by
  refine ⟨?_, ?_, ?_⟩
  · intro h
    rw [extractEventDataIssueComment, if_pos h]
  · intro h
    rw [extractEventDataIssueComment, if_neg (by omega)]
  · intro h
    rw [extractEventDataIssueComment, if_neg (by rw [h]; simp)]

/-- Witness for C10: a 10-character SHA yields the 7-character tag; the
empty SHA panics. -/
theorem extractEventData_sha_panic_witness :
    extractEventDataIssueComment
        (.ok ⟨str "feat/x", str "abcdef1234"⟩) =
      .ok (str "feat/x") ((str "abcdef1234").take 7) ∧
    extractEventDataIssueComment (.ok ⟨str "feat/x", []⟩) =
      .panicked (str "runtime error: slice bounds out of range") :=
  ⟨(extractEventData_sha_panic _).1 (by decide),
   (extractEventData_sha_panic _).2.2 rfl⟩
